import Mathlib

/-!
Verification of the offline persistence layer of the YouTube schedule
manager: a shallow embedding of `sqlite-service.ts`, `schema.ts`,
`filesystem-service.ts`, `offline-api-service.ts`, `api-switcher.ts` and the
app lifecycle handlers, with proofs of the specified properties.

Modelling conventions.
* The two SQLite tables become Lean lists kept in rowid (insertion) order,
  together with the AUTOINCREMENT counters.
* Timestamps that the source stores as `format(now, 'yyyy-MM-dd HH:mm:ss')`
  strings are modelled as the underlying instant, an `Int` count of
  milliseconds; a formatted date string is never empty, hence always truthy,
  and always parses back to a valid `Date`, so the `p.lastPushReset ?`
  truthiness test and the `isValid` guard of the source are faithfully
  rendered by the `Option` match.
* JavaScript `x || y` coercions on nullable columns are modelled exactly:
  an empty string and the number `0` are falsy.
* Fallible operations return `Except DbError`; the promised value of an
  `async` function is the returned value.
-/

/-- Error raised by the embedded relational engine when the
`videos.profileId` foreign key is violated on insert (schema.ts declares
`FOREIGN KEY (profileId) REFERENCES profiles (id) ON DELETE CASCADE`). -/
inductive DbError where
  | constraintViolation
deriving DecidableEq, Repr

/-- The id-less fields of a profile row (schema.ts, `profiles` table). -/
structure ProfileData where
  name : String
  channelName : String
  channelLink : String
  dailyPushCount : Int
  lastPushReset : Option Int
deriving DecidableEq, Repr

/-- A stored profile row: `ProfileData` plus the assigned id. -/
structure Profile extends ProfileData where
  id : Nat
deriving DecidableEq, Repr

/-- The id-less fields of a video row (schema.ts, `videos` table). -/
structure VideoData where
  profileId : Nat
  title : String
  description : String
  filePath : Option String
  fileName : Option String
  fileSize : Option Int
  originalFilePath : Option String
  originalFileSize : Option Int
  thumbnailPath : Option String
  duration : Option String
  scheduleDate : String
  status : String
  uploadedDate : Option String
  youtubeLink : Option String
  isFileUploaded : Bool
  isPlaceholder : Bool
deriving DecidableEq, Repr

/-- A stored video row: `VideoData` plus the assigned id. -/
structure Video extends VideoData where
  id : Nat
deriving DecidableEq, Repr

/-- The database state: both tables in rowid order plus the AUTOINCREMENT
counters of the two `INTEGER PRIMARY KEY AUTOINCREMENT` columns. -/
structure Store where
  profiles : List Profile
  videos : List Video
  nextProfileId : Nat
  nextVideoId : Nat
deriving DecidableEq, Repr

/-- A freshly created database (both tables empty, rowids start at 1). -/
def emptyStore : Store := { profiles := [], videos := [], nextProfileId := 1, nextVideoId := 1 }

/-- JavaScript `v || null` on a nullable string column: the empty string is
falsy and is replaced by `null`. -/
def blankToNull : Option String → Option String
  | some "" => none
  | v => v

/-- JavaScript `v || null` on a nullable numeric column: the number `0` is
falsy and is replaced by `null`. -/
def zeroToNull : Option Int → Option Int
  | some 0 => none
  | v => v

/-- JavaScript `n || 0` on the (non-nullable) `dailyPushCount` number. -/
def jsOrZero (n : Int) : Int := if n = 0 then 0 else n

/-- Insertion step of a straight insertion sort. -/
def insertSorted (le : α → α → Bool) (a : α) : List α → List α
  | [] => [a]
  | b :: bs => if le a b then a :: b :: bs else b :: insertSorted le a bs

/-- Sorting used to model the SQL `ORDER BY` clauses of the list queries
(any total ordering of the rows yields the same multiset of rows). -/
def sortRows (le : α → α → Bool) : List α → List α
  | [] => []
  | a :: as => insertSorted le a (sortRows le as)

/-- Source `SQLiteService.getProfile` (sqlite-service.ts:133): `SELECT * FROM
profiles WHERE id = ?`, `undefined` (here `none`) when no row matches. -/
def getProfile (s : Store) (id : Nat) : Option Profile :=
  s.profiles.find? (fun p => p.id == id)

/-- Source `SQLiteService.getProfiles` (sqlite-service.ts:127): `SELECT * FROM
profiles ORDER BY name ASC`. -/
def getProfiles (s : Store) : List Profile :=
  sortRows (fun a b => a.name ≤ b.name) s.profiles

/-- Source `SQLiteService.createProfile` (sqlite-service.ts:142): INSERT with the
`profile.dailyPushCount || 0` and `profile.lastPushReset || null` coercions
(the latter is the identity here: a formatted timestamp is never the empty
string).  The returned record is `{ id: result.lastId!, ...profile }`, i.e.
the uncoerced input together with the assigned id. -/
def createProfile (s : Store) (d : ProfileData) : Store × Profile :=
  let stored : Profile :=
    { name := d.name
      channelName := d.channelName
      channelLink := d.channelLink
      dailyPushCount := jsOrZero d.dailyPushCount
      lastPushReset := d.lastPushReset
      id := s.nextProfileId }
  ({ s with profiles := s.profiles ++ [stored], nextProfileId := s.nextProfileId + 1 },
   { toProfileData := d, id := s.nextProfileId })

/-- A partial profile record as passed to `updateProfile`: `none` models a
field left `undefined` (absent), mirroring the `!== undefined` tests that
build the SQL `SET` clause field by field. -/
structure ProfilePatch where
  name : Option String := none
  channelName : Option String := none
  channelLink : Option String := none
  dailyPushCount : Option Int := none
  lastPushReset : Option (Option Int) := none
deriving DecidableEq, Repr

/-- Source `fields.length === 0`: no field of the partial record was supplied. -/
def ProfilePatch.isEmpty (u : ProfilePatch) : Bool :=
  u.name.isNone && u.channelName.isNone && u.channelLink.isNone &&
  u.dailyPushCount.isNone && u.lastPushReset.isNone

/-- Effect of the dynamically built `UPDATE profiles SET ...` statement on
one matching row: each supplied field is overwritten, the rest keep their
stored values. -/
def applyProfilePatch (u : ProfilePatch) (p : Profile) : Profile :=
  { name := u.name.getD p.name
    channelName := u.channelName.getD p.channelName
    channelLink := u.channelLink.getD p.channelLink
    dailyPushCount := u.dailyPushCount.getD p.dailyPushCount
    lastPushReset := u.lastPushReset.getD p.lastPushReset
    id := p.id }

/-- Source `SQLiteService.updateProfile` (sqlite-service.ts:162): if no field is
supplied, return `getProfile(id)` without touching the table; otherwise run
the built UPDATE on the rows matching the id and return `getProfile(id)`. -/
def updateProfile (s : Store) (id : Nat) (u : ProfilePatch) : Store × Option Profile :=
  if u.isEmpty then (s, getProfile s id)
  else
    let s' : Store :=
      { s with profiles := s.profiles.map (fun p => if p.id == id then applyProfilePatch u p else p) }
    (s', getProfile s' id)

/-- Source `SQLiteService.deleteProfile` (sqlite-service.ts:204) under the schema's
`ON DELETE CASCADE` referential rule: the profile row is deleted and every
video row whose `profileId` references it is deleted with it.  Returns
whether any profile row was deleted (`result.changes > 0`). -/
def deleteProfile (s : Store) (id : Nat) : Store × Bool :=
  ({ s with profiles := s.profiles.filter (fun p => !(p.id == id)),
            videos := s.videos.filter (fun v => !(v.profileId == id)) },
   s.profiles.any (fun p => p.id == id))

/-- Source `SQLiteService.has24HoursPassed` (sqlite-service.ts:462) on a valid
parsed date: `diffMs / (1000*60*60) >= 24` with exact arithmetic is
`diffMs >= 86400000` (division by the positive constant is monotone; an
invalid date, which the function also sends to `true`, does not arise for
instants). -/
def has24HoursPassed (nowMs lastResetMs : Int) : Bool :=
  nowMs - lastResetMs ≥ 86400000

/-- Source `SQLiteService.incrementProfilePushCount` (sqlite-service.ts:210):
load the profile; reset the count to 1 and stamp `lastPushReset := now`
when `lastPushReset` is null (falsy) or `has24HoursPassed` holds, else
increment the count, leaving `lastPushReset` alone.  `nowMs` is the current
instant. -/
def incrementProfilePushCount (s : Store) (nowMs : Int) (id : Nat) : Store × Option Profile :=
  match getProfile s id with
  | none => (s, none)
  | some p =>
    let shouldReset :=
      match p.lastPushReset with
      | some t => has24HoursPassed nowMs t
      | none => true
    if shouldReset then
      updateProfile s id { dailyPushCount := some 1, lastPushReset := some (some nowMs) }
    else
      updateProfile s id { dailyPushCount := some (p.dailyPushCount + 1) }

/-- Source `SQLiteService.getVideo` (sqlite-service.ts:268): `undefined` (here
`none`) when no row matches. -/
def getVideo (s : Store) (id : Nat) : Option Video :=
  s.videos.find? (fun v => v.id == id)

/-- Source `SQLiteService.getVideos` (sqlite-service.ts:243): `SELECT * FROM videos
ORDER BY scheduleDate DESC`. -/
def getVideos (s : Store) : List Video :=
  sortRows (fun a b => b.scheduleDate ≤ a.scheduleDate) s.videos

/-- The falsy-coercions of `SQLiteService.createVideo`'s INSERT parameter
list (sqlite-service.ts:287-304), applied to the id-less fields: `|| null`
on every nullable column, `|| 'pending'` on `status`, and the
`? 1 : 0` / `Boolean(...)` round trip (the identity) on the flags. -/
def coerceVideoData (d : VideoData) : VideoData :=
  { d with
    filePath := blankToNull d.filePath
    fileName := blankToNull d.fileName
    fileSize := zeroToNull d.fileSize
    originalFilePath := blankToNull d.originalFilePath
    originalFileSize := zeroToNull d.originalFileSize
    thumbnailPath := blankToNull d.thumbnailPath
    duration := blankToNull d.duration
    status := if d.status = "" then "pending" else d.status
    uploadedDate := blankToNull d.uploadedDate
    youtubeLink := blankToNull d.youtubeLink }

/-- Source `SQLiteService.createVideo` (sqlite-service.ts:277): INSERT with the
falsy coercions; the engine rejects the row with a constraint violation
when `profileId` references no profile (schema.ts foreign key).  Like
`createProfile`, the returned record is the uncoerced input plus the id. -/
def createVideo (s : Store) (d : VideoData) : Except DbError (Store × Video) :=
  if s.profiles.any (fun p => p.id == d.profileId) then
    let stored : Video := { toVideoData := coerceVideoData d, id := s.nextVideoId }
    .ok ({ s with videos := s.videos ++ [stored], nextVideoId := s.nextVideoId + 1 },
         { toVideoData := d, id := s.nextVideoId })
  else
    .error .constraintViolation

/-- A partial video record as passed to `updateVideo`; `none` models an
absent (`undefined`) field, exactly the fields tested by the source. -/
structure VideoPatch where
  profileId : Option Nat := none
  title : Option String := none
  description : Option String := none
  filePath : Option (Option String) := none
  fileName : Option (Option String) := none
  fileSize : Option (Option Int) := none
  originalFilePath : Option (Option String) := none
  originalFileSize : Option (Option Int) := none
  thumbnailPath : Option (Option String) := none
  duration : Option (Option String) := none
  scheduleDate : Option String := none
  status : Option String := none
  uploadedDate : Option (Option String) := none
  youtubeLink : Option (Option String) := none
  isFileUploaded : Option Bool := none
  isPlaceholder : Option Bool := none
deriving DecidableEq, Repr

/-- Source `fields.length === 0` for a video patch. -/
def VideoPatch.isEmpty (u : VideoPatch) : Bool :=
  u.profileId.isNone && u.title.isNone && u.description.isNone &&
  u.filePath.isNone && u.fileName.isNone && u.fileSize.isNone &&
  u.originalFilePath.isNone && u.originalFileSize.isNone &&
  u.thumbnailPath.isNone && u.duration.isNone && u.scheduleDate.isNone &&
  u.status.isNone && u.uploadedDate.isNone && u.youtubeLink.isNone &&
  u.isFileUploaded.isNone && u.isPlaceholder.isNone

/-- Effect of the dynamically built `UPDATE videos SET ...` on one matching
row. -/
def applyVideoPatch (u : VideoPatch) (v : Video) : Video :=
  { profileId := u.profileId.getD v.profileId
    title := u.title.getD v.title
    description := u.description.getD v.description
    filePath := u.filePath.getD v.filePath
    fileName := u.fileName.getD v.fileName
    fileSize := u.fileSize.getD v.fileSize
    originalFilePath := u.originalFilePath.getD v.originalFilePath
    originalFileSize := u.originalFileSize.getD v.originalFileSize
    thumbnailPath := u.thumbnailPath.getD v.thumbnailPath
    duration := u.duration.getD v.duration
    scheduleDate := u.scheduleDate.getD v.scheduleDate
    status := u.status.getD v.status
    uploadedDate := u.uploadedDate.getD v.uploadedDate
    youtubeLink := u.youtubeLink.getD v.youtubeLink
    isFileUploaded := u.isFileUploaded.getD v.isFileUploaded
    isPlaceholder := u.isPlaceholder.getD v.isPlaceholder
    id := v.id }

/-- Source `SQLiteService.updateVideo` (sqlite-service.ts:312): empty patch reads
the row back untouched, otherwise the built UPDATE runs and `getVideo(id)`
is returned.  (Re-pointing `profileId` at a missing profile is outside this
model; no caller in the repository patches `profileId`.) -/
def updateVideo (s : Store) (id : Nat) (u : VideoPatch) : Store × Option Video :=
  if u.isEmpty then (s, getVideo s id)
  else
    let s' : Store :=
      { s with videos := s.videos.map (fun v => if v.id == id then applyVideoPatch u v else v) }
    (s', getVideo s' id)

/-- Source `SQLiteService.deleteVideo` (sqlite-service.ts:409): delete the row,
report whether a row was deleted. -/
def deleteVideo (s : Store) (id : Nat) : Store × Bool :=
  ({ s with videos := s.videos.filter (fun v => !(v.id == id)) },
   s.videos.any (fun v => v.id == id))

/-! ## File Area Manager (filesystem-service.ts) -/

/-- The app-private file area: the set of paths currently present, as a
list. -/
abbrev FileArea := List String

/-- Source `FileSystemService.deleteFile` (filesystem-service.ts `deleteFile`):
`Filesystem.deleteFile` rejects when the path is absent; the catch block
logs and then re-throws (`throw error`), so the failure propagates to the
caller. -/
def fsDeleteFile (fs : FileArea) (p : String) : Except String FileArea :=
  if p ∈ fs then .ok (List.erase fs p)
  else .error ("Error deleting file " ++ p)

/-- A file deletion at a call site that attaches
`.catch(e => console.error(...))`: the failure is swallowed and the file
area is left as it was. -/
def fsDeleteBestEffort (fs : FileArea) (p : String) : FileArea :=
  match fsDeleteFile fs p with
  | .ok fs' => fs'
  | .error _ => fs

/-! ## Offline Service Facade (offline-api-service.ts)

Operations that may touch the file area also return the list of paths on
which a file deletion was attempted, so that "attempts deletion of the
file" is an observable of the model. -/

/-- Source `OfflineApiService.deleteVideo` (offline-api-service.ts:145): look the
video up; best-effort delete its file and its thumbnail (each wrapped in
`.catch`, so failures are swallowed); then delete the row.  The result
carries the new store, the new file area, the paths whose deletion was
attempted, and the boolean returned to the caller. -/
def offlineDeleteVideo (s : Store) (fs : FileArea) (id : Nat) :
    Store × FileArea × List String × Bool :=
  let (fs1, t1) :=
    match getVideo s id with
    | none => (fs, [])
    | some v =>
      let (fsA, tA) :=
        match v.filePath with
        | some p => (fsDeleteBestEffort fs p, [p])
        | none => (fs, [])
      match v.thumbnailPath with
      | some p => (fsDeleteBestEffort fsA p, tA ++ [p])
      | none => (fsA, tA)
  let (s', ok) := deleteVideo s id
  (s', fs1, t1, ok)

/-- Source `OfflineApiService.deleteProfile` (offline-api-service.ts:65): a plain
delegation to `sqliteService.deleteProfile(id)`; no file is touched, so
the attempted-deletion trace is empty and the file area is unchanged. -/
def offlineDeleteProfile (s : Store) (fs : FileArea) (id : Nat) :
    Store × FileArea × List String × Bool :=
  let (s', ok) := deleteProfile s id
  (s', fs, [], ok)

/-- Source `OfflineApiService.markVideoAsUploaded` (offline-api-service.ts:161):
null for a missing video, otherwise update status to `completed` and stamp
`uploadedDate` with `format(now, 'yyyy-MM-dd')` (the parameter `today`). -/
def markVideoAsUploaded (s : Store) (today : String) (id : Nat) : Store × Option Video :=
  match getVideo s id with
  | none => (s, none)
  | some _ =>
    updateVideo s id { status := some "completed", uploadedDate := some (some today) }

/-- Source `OfflineApiService.revertVideoUpload` (offline-api-service.ts:173):
null for a missing video, otherwise set status back to `pending` and clear
`uploadedDate` and `youtubeLink`. -/
def revertVideoUpload (s : Store) (id : Nat) : Store × Option Video :=
  match getVideo s id with
  | none => (s, none)
  | some _ =>
    updateVideo s id
      { status := some "pending", uploadedDate := some none, youtubeLink := some none }

/-! ### Export / import -/

/-- The export file format `{ profiles: Profile[], videos: Video[] }`. -/
structure ExportBundle where
  profiles : List Profile
  videos : List Video
deriving DecidableEq, Repr

/-- Source `OfflineApiService.exportData` (offline-api-service.ts:266): a full
snapshot through `getProfiles()` and `getVideos()`. -/
def exportData (s : Store) : ExportBundle :=
  { profiles := getProfiles s, videos := getVideos s }

/-- Raw input handed to `importData`: each key may be absent (or bound to a
non-iterable value), modelled as `none`; `for...of` over such a value
throws. -/
structure ImportInput where
  profiles : Option (List Profile)
  videos : Option (List Video)
deriving Repr

/-- An export bundle as an import input (both keys present). -/
def ExportBundle.toInput (b : ExportBundle) : ImportInput :=
  { profiles := some b.profiles, videos := some b.videos }

/-- The profile loop of `importData`: each record is inserted with its id
stripped (`const { id, ...profileData } = profile`); `createProfile` always
succeeds. -/
def importProfiles : List ProfileData → Store → Store
  | [], s => s
  | d :: ds, s => importProfiles ds (createProfile s d).1

/-- The video loop of `importData`: ids stripped, inserted one by one; a
rejected insert throws out of the loop into the catch block, which returns
`false`, leaving the rows already inserted in place. -/
def importVideos : List VideoData → Store → Store × Bool
  | [], s => (s, true)
  | d :: ds, s =>
    match createVideo s d with
    | .ok (s', _) => importVideos ds s'
    | .error _ => (s, false)

/-- Source `OfflineApiService.importData` (offline-api-service.ts:273): no
validation of the input shape; `for (const profile of data.profiles)` on an
absent key throws at once (nothing inserted, catch returns `false`);
otherwise all profiles are inserted, and then the video loop runs the same
way. -/
def importData (inp : ImportInput) (s : Store) : Store × Bool :=
  match inp.profiles with
  | none => (s, false)
  | some ps =>
    let s1 := importProfiles (ps.map Profile.toProfileData) s
    match inp.videos with
    | none => (s1, false)
    | some vs => importVideos (vs.map Video.toVideoData) s1

/-! ### The promise-typed lookups (offline-api-service.ts:116, 140)

`getVideo` and `updateVideo` of the facade write
`return sqliteService.getVideo(id) || null` — the `||` is applied to the
promise object itself, not to its resolved value. -/

/-- What an awaited JavaScript expression can resolve to: `undefined`,
`null`, or a proper value. -/
inductive JsValue (α : Type) where
  | undef
  | jsnull
  | val (a : α)
deriving DecidableEq, Repr

/-- A promise object, carrying what it will resolve to. -/
structure JsPromise (α : Type) where
  resolvesTo : JsValue α
deriving DecidableEq, Repr

/-- JavaScript truthiness of a promise: a promise is an object, and every
object is truthy, whatever it resolves to. -/
def JsPromise.isTruthy {α : Type} (_ : JsPromise α) : Bool := true

/-- Awaiting `p || null` where `p` is a promise: when `p` is truthy the
expression is `p` and awaiting yields its resolved value; otherwise the
expression is the plain value `null`. -/
def awaitOrNull {α : Type} (p : JsPromise α) : JsValue α :=
  if p.isTruthy then p.resolvesTo else .jsnull

/-- The resolved value of the SQLite layer's lookup as a JavaScript value:
`undefined` when the row is missing. -/
def jsOfOption {α : Type} : Option α → JsValue α
  | none => .undef
  | some a => .val a

/-- Source `OfflineApiService.getVideo` (offline-api-service.ts:116): the awaited
result of `sqliteService.getVideo(id) || null`. -/
def offlineGetVideo (s : Store) (id : Nat) : JsValue Video :=
  awaitOrNull { resolvesTo := jsOfOption (getVideo s id) }

/-- Source `OfflineApiService.updateVideo` (offline-api-service.ts:140): the new
store plus the awaited result of `sqliteService.updateVideo(id, video) ||
null`. -/
def offlineUpdateVideo (s : Store) (id : Nat) (u : VideoPatch) : Store × JsValue Video :=
  ((updateVideo s id u).1, awaitOrNull { resolvesTo := jsOfOption (updateVideo s id u).2 })

/-! ## Mode Switch / Failover Controller (api-switcher.ts) -/

/-- The controller's persistent and platform context: the persisted
`offline_mode_preference` value and whether `Device.getInfo()` reports a
native (`android`/`ios`) platform. -/
structure SwitchState where
  pref : Option String
  nativeApp : Bool
deriving DecidableEq, Repr

/-- Source `isOfflineMode` (api-switcher.ts:34): `forced` wins; a non-native
platform always reads online; otherwise the persisted `true` decides. -/
def isOfflineMode (st : SwitchState) : Bool :=
  if st.pref == some "forced" then true
  else if !st.nativeApp then false
  else st.pref == some "true"

/-- Source `setOfflineMode` (api-switcher.ts:60): persist `forced`, `true` or
`false`. -/
def setOfflineMode (enabled : Bool) (forced : Bool) (st : SwitchState) : SwitchState :=
  { st with pref := some (if forced then "forced" else if enabled then "true" else "false") }

/-- Outcome of the attempted network call inside `apiRequest`: either the
parsed JSON value or a thrown error. -/
inductive NetOutcome (α : Type) where
  | ok (a : α)
  | err (msg : String)
deriving DecidableEq, Repr

/-- Source `apiRequest` (api-switcher.ts:104): offline mode dispatches to the
offline handler (an error when none was supplied); online mode performs the
network call; on a network failure with an offline handler present the
controller persists offline mode (`setOfflineMode(true)`) and returns the
handler's result, otherwise the error propagates.  The handler is modelled
by the value it resolves to. -/
def apiRequest {α : Type} (st : SwitchState) (network : NetOutcome α)
    (offlineHandler : Option α) : NetOutcome α × SwitchState :=
  if isOfflineMode st then
    match offlineHandler with
    | none => (.err "Offline mode active but no offline handler provided", st)
    | some h => (.ok h, st)
  else
    match network with
    | .ok v => (.ok v, st)
    | .err e =>
      match offlineHandler with
      | some h => (.ok h, setOfflineMode true false st)
      | none => (.err e, st)

/-! ## Lifecycle (sqlite-service.ts:29,473 and the app lifecycle module) -/

/-- The connection-level state of the `SQLiteService` singleton: the
`_isInitialized` flag and whether the database connection is open. -/
structure SqlConnState where
  isInit : Bool
  connOpen : Bool
deriving DecidableEq, Repr

/-- Source `SQLiteService.initialize` (sqlite-service.ts:29): an early return when
`_isInitialized` is already set; otherwise the connection is opened, the
tables are created and the flag is set. -/
def sqlServiceInit (st : SqlConnState) : SqlConnState :=
  if st.isInit then st else { isInit := true, connOpen := true }

/-- Source `SQLiteService.closeConnection` (sqlite-service.ts:473): the connection
is closed, then `this.isInitialized = false` assigns to the getter-only
accessor `isInitialized` (it has no setter), which throws a `TypeError`
inside the `try`; the catch block logs it, so `_isInitialized` is left
`true`. -/
def closeConnection (st : SqlConnState) : SqlConnState :=
  { st with connOpen := false }

/-- Source `onAppForeground` (app lifecycle module): re-initialize the SQLite
service only `if (!sqliteService.isInitialized)`. -/
def onAppForeground (st : SqlConnState) : SqlConnState :=
  if !st.isInit then sqlServiceInit st else st

/-! ## Concrete fixtures used by counterexamples and witnesses -/

/-- A profile five pushes into a window that opened at instant 0. -/
def profC1 : Profile :=
  { name := "Chan", channelName := "@chan", channelLink := "https://youtube.com/@chan",
    dailyPushCount := 5, lastPushReset := some 0, id := 1 }

/-- A one-profile database holding `profC1`. -/
def storeC1 : Store := { profiles := [profC1], videos := [], nextProfileId := 2, nextVideoId := 1 }

/-- A profile that owns a video. -/
def profC2 : Profile :=
  { name := "Chan", channelName := "@chan", channelLink := "https://youtube.com/@chan",
    dailyPushCount := 0, lastPushReset := none, id := 1 }

/-- A video of profile 1 with a stored file and thumbnail. -/
def vidC2 : Video :=
  { profileId := 1, title := "Video A", description := "first", filePath := some "videos/a.mp4",
    fileName := some "a.mp4", fileSize := some 1000, originalFilePath := none,
    originalFileSize := none, thumbnailPath := some "thumbs/a.jpg", duration := none,
    scheduleDate := "2024-05-01 10:00:00", status := "pending", uploadedDate := none,
    youtubeLink := none, isFileUploaded := true, isPlaceholder := false, id := 1 }

/-- A database with one profile owning one video with files. -/
def storeC2 : Store := { profiles := [profC2], videos := [vidC2], nextProfileId := 2, nextVideoId := 2 }

/-- The file area holding the video's file and thumbnail. -/
def fsC2 : FileArea := ["videos/a.mp4", "thumbs/a.jpg"]

/-- A pending video carrying a stale `youtubeLink`. -/
def vidC3 : Video :=
  { profileId := 1, title := "T", description := "D", filePath := none, fileName := none,
    fileSize := none, originalFilePath := none, originalFileSize := none, thumbnailPath := none,
    duration := none, scheduleDate := "2024-05-01 10:00:00", status := "pending",
    uploadedDate := none, youtubeLink := some "https://youtu.be/x", isFileUploaded := false,
    isPlaceholder := false, id := 1 }

/-- A database holding just `vidC3`. -/
def storeC3 : Store := { profiles := [profC2], videos := [vidC3], nextProfileId := 2, nextVideoId := 2 }

/-- An import payload whose `videos` key is missing. -/
def inC5 : ImportInput := { profiles := some [profC2], videos := none }

/-- A video whose `fileSize` is the JavaScript-falsy number 0. -/
def vidC6 : Video :=
  { profileId := 1, title := "t", description := "d", filePath := none, fileName := none,
    fileSize := some 0, originalFilePath := none, originalFileSize := none,
    thumbnailPath := none, duration := none, scheduleDate := "2024-05-01 10:00:00",
    status := "pending", uploadedDate := none, youtubeLink := none, isFileUploaded := false,
    isPlaceholder := false, id := 1 }

/-- A database with a `fileSize = 0` video, breaking the export/import round
trip. -/
def storeC6 : Store := { profiles := [profC2], videos := [vidC6], nextProfileId := 2, nextVideoId := 2 }

/-- A video of the same shape but with a truthy `fileSize`. -/
def vidC6w : Video := { vidC6 with fileSize := some 1000 }

/-- A database on which the export/import round trip does preserve every
field. -/
def storeC6w : Store := { profiles := [profC2], videos := [vidC6w], nextProfileId := 2, nextVideoId := 2 }

/-- A video whose recorded file path no longer exists in the file area. -/
def vidC9 : Video :=
  { profileId := 1, title := "t", description := "d", filePath := some "videos/gone.mp4",
    fileName := none, fileSize := none, originalFilePath := none, originalFileSize := none,
    thumbnailPath := none, duration := none, scheduleDate := "2024-01-01 00:00:00",
    status := "pending", uploadedDate := none, youtubeLink := none, isFileUploaded := false,
    isPlaceholder := false, id := 1 }

/-- A database holding `vidC9`. -/
def storeC9 : Store := { profiles := [profC2], videos := [vidC9], nextProfileId := 2, nextVideoId := 2 }

/-- Requirement on a video's id-less fields under which the INSERT coercions
of `createVideo` change nothing: no nullable column holds a JavaScript-falsy
value (`""` or `0`) and the status is nonempty. -/
def cleanVideoData (d : VideoData) : Prop :=
  d.filePath ≠ some "" ∧ d.fileName ≠ some "" ∧ d.fileSize ≠ some 0 ∧
  d.originalFilePath ≠ some "" ∧ d.originalFileSize ≠ some 0 ∧
  d.thumbnailPath ≠ some "" ∧ d.duration ≠ some "" ∧ d.status ≠ "" ∧
  d.uploadedDate ≠ some "" ∧ d.youtubeLink ≠ some ""

instance (d : VideoData) : Decidable (cleanVideoData d) := by
  unfold cleanVideoData
  infer_instance

/-- The profile rows produced by inserting a list of id-less records one by
one starting from AUTOINCREMENT value `n` (proof-side characterization of
the profile import loop). -/
def seedProfiles (n : Nat) : List ProfileData → List Profile
  | [] => []
  | d :: ds => { toProfileData := d, id := n } :: seedProfiles (n + 1) ds

/-! ## Helper lemmas -/

theorem jsOrZero_eq (n : Int) : jsOrZero n = n := by
  unfold jsOrZero
  split <;> omega

theorem blankToNull_eq {o : Option String} (h : o ≠ some "") : blankToNull o = o := by
  match o with
  | none => rfl
  | some s =>
    have hs : s ≠ "" := fun e => h (by rw [e])
    simp [blankToNull, hs]

theorem zeroToNull_eq {o : Option Int} (h : o ≠ some 0) : zeroToNull o = o := by
  match o with
  | none => rfl
  | some n =>
    have hn : n ≠ 0 := fun e => h (by rw [e])
    simp [zeroToNull, hn]

theorem coerceVideoData_eq_self {d : VideoData} (h : cleanVideoData d) :
    coerceVideoData d = d := by
  obtain ⟨h1, h2, h3, h4, h5, h6, h7, h8, h9, h10⟩ := h
  unfold coerceVideoData
  rw [blankToNull_eq h1, blankToNull_eq h2, zeroToNull_eq h3, blankToNull_eq h4,
    zeroToNull_eq h5, blankToNull_eq h6, blankToNull_eq h7, blankToNull_eq h9,
    blankToNull_eq h10, if_neg h8]

theorem insertSorted_perm (le : α → α → Bool) (a : α) (l : List α) :
    (insertSorted le a l).Perm (a :: l) := by
  induction l with
  | nil => exact List.Perm.refl _
  | cons b bs ih =>
    unfold insertSorted
    split
    · exact List.Perm.refl _
    · exact (ih.cons b).trans (List.Perm.swap a b bs)

theorem sortRows_perm (le : α → α → Bool) (l : List α) : (sortRows le l).Perm l := by
  induction l with
  | nil => exact List.Perm.refl _
  | cons a as ih => exact (insertSorted_perm le a (sortRows le as)).trans (ih.cons a)

theorem find?_map_cond {α : Type} (p : α → Bool) (f : α → α)
    (hp : ∀ a, p a = true → p (f a) = true) :
    ∀ (l : List α) (a : α), l.find? p = some a →
      (l.map fun x => if p x then f x else x).find? p = some (f a) := by
  intro l
  induction l with
  | nil => intro a h; simp at h
  | cons x xs ih =>
    intro a h
    cases hx : p x with
    | true =>
      rw [List.find?_cons_of_pos _ hx] at h
      injection h with h
      subst h
      simp only [List.map_cons, if_pos hx]
      exact List.find?_cons_of_pos _ (hp x hx)
    | false =>
      rw [List.find?_cons_of_neg _ (by simp [hx])] at h
      simp only [List.map_cons, if_neg (by simp [hx] : ¬ p x = true)]
      rw [List.find?_cons_of_neg _ (by simp [hx])]
      exact ih a h

theorem updateProfile_found (s : Store) (id : Nat) (p : Profile) (u : ProfilePatch)
    (h : getProfile s id = some p) (hu : u.isEmpty = false) :
    (updateProfile s id u).2 = some (applyProfilePatch u p) := by
  have h' : s.profiles.find? (fun q => q.id == id) = some p := h
  have hm := find?_map_cond (fun q : Profile => q.id == id) (applyProfilePatch u)
    (fun a ha => ha) s.profiles p h'
  unfold updateProfile
  rw [hu]
  exact hm

theorem updateVideo_found (s : Store) (id : Nat) (v : Video) (u : VideoPatch)
    (h : getVideo s id = some v) (hu : u.isEmpty = false) :
    (updateVideo s id u).2 = some (applyVideoPatch u v) := by
  have h' : s.videos.find? (fun w => w.id == id) = some v := h
  have hm := find?_map_cond (fun w : Video => w.id == id) (applyVideoPatch u)
    (fun a ha => ha) s.videos v h'
  unfold updateVideo
  rw [hu]
  exact hm

theorem updateVideo_missing (s : Store) (id : Nat) (u : VideoPatch)
    (h : getVideo s id = none) : (updateVideo s id u).2 = none := by
  have hall : ∀ v ∈ s.videos, ¬ ((v.id == id) = true) := by
    simpa [getVideo, List.find?_eq_none] using h
  unfold updateVideo
  split
  · exact h
  · simp only [getVideo]
    rw [List.find?_eq_none]
    intro x hx
    rcases List.mem_map.mp hx with ⟨v, hv, rfl⟩
    have hne := hall v hv
    simp [hne]

theorem updateVideo_snd_eq (s : Store) (id : Nat) (u : VideoPatch) :
    (updateVideo s id u).2 = getVideo (updateVideo s id u).1 id := by
  unfold updateVideo
  split <;> rfl

/-! ## Claims -/

/-- C7 (code bug witness): once the store was initialized, closing the
connection leaves `_isInitialized` set (the flag-clearing assignment throws
a swallowed `TypeError`), so the next foreground transition skips the
re-initialization and the connection stays closed, contradicting the
specified re-open behavior. -/
theorem C7_foreground_leaves_connection_closed (st : SqlConnState) (h : st.isInit = true) :
    (onAppForeground (closeConnection st)).isInit = true ∧
    (onAppForeground (closeConnection st)).connOpen = false := by
  simp [onAppForeground, closeConnection, sqlServiceInit, h]

/-- C7 witness: the failing run from a fully initialized service. -/
theorem C7_foreground_leaves_connection_closed_witness :
    SqlConnState.isInit { isInit := true, connOpen := true } = true ∧
    ((onAppForeground (closeConnection { isInit := true, connOpen := true })).isInit = true ∧
     (onAppForeground (closeConnection { isInit := true, connOpen := true })).connOpen = false) :=
  ⟨rfl, C7_foreground_leaves_connection_closed { isInit := true, connOpen := true } rfl⟩

/-- C10: on an id with no stored video the facade's `getVideo` resolves to
`undefined` (never `null`), because the `|| null` fallback is applied to
the always-truthy promise object, and so does the facade's `updateVideo`. -/
theorem C10_missing_video_resolves_undefined (s : Store) (id : Nat) (u : VideoPatch)
    (h : getVideo s id = none) :
    offlineGetVideo s id = JsValue.undef ∧
    offlineGetVideo s id ≠ JsValue.jsnull ∧
    (offlineUpdateVideo s id u).2 = JsValue.undef ∧
    (offlineUpdateVideo s id u).2 ≠ JsValue.jsnull := by
  have h2 := updateVideo_missing s id u h
  refine ⟨?_, ?_, ?_, ?_⟩ <;>
    simp [offlineGetVideo, offlineUpdateVideo, awaitOrNull, JsPromise.isTruthy, jsOfOption, h, h2]

/-- C10 witness: looking up id 1 in the empty database. -/
theorem C10_missing_video_resolves_undefined_witness :
    getVideo emptyStore 1 = none ∧
    (offlineGetVideo emptyStore 1 = JsValue.undef ∧
     offlineGetVideo emptyStore 1 ≠ JsValue.jsnull ∧
     (offlineUpdateVideo emptyStore 1 {}).2 = JsValue.undef ∧
     (offlineUpdateVideo emptyStore 1 {}).2 ≠ JsValue.jsnull) :=
  ⟨rfl, C10_missing_video_resolves_undefined emptyStore 1 {} rfl⟩

/-- C4 counterexample: on a non-native (web) platform the controller is in
online mode, the network call fails, the offline handler's value 42 is
returned and `true` is persisted — yet the subsequent mode read still
returns online (`false`), because `isOfflineMode` ignores a non-`forced`
preference off native platforms.  This refutes "every subsequent mode read
returns offline" as stated. -/
theorem C4_web_failover_mode_read_still_online :
    isOfflineMode { pref := none, nativeApp := false } = false ∧
    (apiRequest { pref := none, nativeApp := false }
        (NetOutcome.err "network down") (some 42)).1 = NetOutcome.ok 42 ∧
    (apiRequest { pref := none, nativeApp := false }
        (NetOutcome.err "network down") (some 42)).2.pref = some "true" ∧
    isOfflineMode (apiRequest { pref := none, nativeApp := false }
        (NetOutcome.err "network down") (some 42)).2 = false := by
  decide

/-- C4 (amended): when `apiRequest` runs in online mode with an offline
handler and the network call fails, the handler's result is returned, the
offline preference is persisted, and — on a native platform — every
subsequent mode read returns offline. -/
theorem C4_failover_on_native {α : Type} (st : SwitchState) (e : String) (x : α)
    (hn : st.nativeApp = true) (honline : isOfflineMode st = false) :
    (apiRequest st (NetOutcome.err e) (some x)).1 = NetOutcome.ok x ∧
    (apiRequest st (NetOutcome.err e) (some x)).2.pref = some "true" ∧
    isOfflineMode (apiRequest st (NetOutcome.err e) (some x)).2 = true := by
  have h1 : st.pref ≠ some "forced" := by
    intro hc
    rw [isOfflineMode] at honline
    simp [hc] at honline
  have h2 : st.pref ≠ some "true" := by
    intro hc
    rw [isOfflineMode] at honline
    simp [hc, hn] at honline
  refine ⟨?_, ?_, ?_⟩ <;>
    simp [apiRequest, honline, setOfflineMode, isOfflineMode, hn, h1, h2]

/-- C4 witness: a native controller with persisted `false`. -/
theorem C4_failover_on_native_witness :
    SwitchState.nativeApp { pref := some "false", nativeApp := true } = true ∧
    isOfflineMode { pref := some "false", nativeApp := true } = false ∧
    ((apiRequest { pref := some "false", nativeApp := true }
        (NetOutcome.err "down") (some (5 : Nat))).1 = NetOutcome.ok 5 ∧
     (apiRequest { pref := some "false", nativeApp := true }
        (NetOutcome.err "down") (some (5 : Nat))).2.pref = some "true" ∧
     isOfflineMode (apiRequest { pref := some "false", nativeApp := true }
        (NetOutcome.err "down") (some (5 : Nat))).2 = true) :=
  ⟨rfl, by decide,
   C4_failover_on_native { pref := some "false", nativeApp := true } "down" 5 rfl (by decide)⟩

/-- C9 counterexample: deleting a path absent from the file area is not a
no-op success — `FileSystemService.deleteFile` re-throws, so it yields an
error, never `ok`. -/
theorem C9_delete_absent_path_fails :
    (¬ "videos/gone.mp4" ∈ ([] : FileArea)) ∧
    fsDeleteFile ([] : FileArea) "videos/gone.mp4" =
      Except.error ("Error deleting file " ++ "videos/gone.mp4") ∧
    fsDeleteFile ([] : FileArea) "videos/gone.mp4" ≠ Except.ok ([] : FileArea) := by
  refine ⟨by simp, rfl, by simp [fsDeleteFile]⟩

/-- C9 (amended): deleting an absent path fails with an error at the File
Area Manager; the facade's `deleteVideo` attaches a catch handler, so the
failure is swallowed (file area unchanged, the path still recorded as an
attempted deletion) and record deletion proceeds and succeeds. -/
theorem C9_absent_file_error_swallowed (fs : FileArea) (p : String) (hp : ¬ p ∈ fs)
    (s : Store) (id : Nat) (v : Video) (hv : getVideo s id = some v)
    (hfp : v.filePath = some p) (htp : v.thumbnailPath = none) :
    fsDeleteFile fs p = Except.error ("Error deleting file " ++ p) ∧
    offlineDeleteVideo s fs id =
      ({ s with videos := s.videos.filter (fun w => !(w.id == id)) }, fs, [p], true) := by
  have herr : fsDeleteFile fs p = Except.error ("Error deleting file " ++ p) := by
    simp [fsDeleteFile, hp]
  have hbe : fsDeleteBestEffort fs p = fs := by
    simp [fsDeleteBestEffort, herr]
  have hv' : s.videos.find? (fun w => w.id == id) = some v := hv
  have hpred : (fun w : Video => w.id == id) v = true :=
    List.find?_some (p := fun w : Video => w.id == id) hv'
  have hok : s.videos.any (fun w => w.id == id) = true :=
    List.any_eq_true.mpr ⟨v, List.mem_of_find?_eq_some hv', hpred⟩
  refine ⟨herr, ?_⟩
  simp [offlineDeleteVideo, hv, hfp, htp, hbe, deleteVideo, hok]

/-- C9 witness: a video record whose file is already gone. -/
theorem C9_absent_file_error_swallowed_witness :
    (¬ "videos/gone.mp4" ∈ ([] : FileArea)) ∧
    getVideo storeC9 1 = some vidC9 ∧
    vidC9.filePath = some "videos/gone.mp4" ∧ vidC9.thumbnailPath = none ∧
    (fsDeleteFile ([] : FileArea) "videos/gone.mp4" =
       Except.error ("Error deleting file " ++ "videos/gone.mp4") ∧
     offlineDeleteVideo storeC9 [] 1 =
       ({ storeC9 with videos := storeC9.videos.filter (fun w => !(w.id == 1)) },
        [], ["videos/gone.mp4"], true)) :=
  ⟨by decide, rfl, rfl, rfl,
   C9_absent_file_error_swallowed [] "videos/gone.mp4" (by decide) storeC9 1 vidC9 rfl rfl rfl⟩

theorem importProfiles_length : ∀ (ds : List ProfileData) (s : Store),
    (importProfiles ds s).profiles.length = s.profiles.length + ds.length := by
  intro ds
  induction ds with
  | nil => intro s; simp [importProfiles]
  | cons d ds ih =>
    intro s
    rw [importProfiles, ih]
    simp [createProfile]
    omega

/-- C5 counterexample: an import payload with a `profiles` array but no
`videos` key fails (returns `false`) only after inserting every profile —
the claimed validate-before-insert behavior (failing with nothing inserted)
does not hold. -/
theorem C5_malformed_import_inserts_profiles :
    inC5.videos = none ∧
    (importData inC5 emptyStore).2 = false ∧
    (importData inC5 emptyStore).1.profiles.length = 1 ∧
    (importData inC5 emptyStore).1 ≠ emptyStore := by
  decide

/-- C5 (amended): `importData` performs no upfront shape validation and
reports failure as a plain `false`, not a dedicated error: a missing (or
non-iterable) `profiles` value fails with the store untouched only because
the profile loop throws immediately, while a missing `videos` value fails
only after all profiles have been inserted, and those insertions remain. -/
theorem C5_import_no_upfront_validation (s : Store) (ps : List Profile)
    (vs : Option (List Video)) :
    importData { profiles := none, videos := vs } s = (s, false) ∧
    (importData { profiles := some ps, videos := none } s).2 = false ∧
    (importData { profiles := some ps, videos := none } s).1.profiles.length
      = s.profiles.length + ps.length := by
  refine ⟨rfl, rfl, ?_⟩
  simp [importData, importProfiles_length]

/-- C1 counterexample: with `lastPushReset` exactly 24 hours ago — not
*more* than 24 hours, as the claim's reset condition requires — the code
resets the count to 1 and restamps `lastPushReset` instead of incrementing
5 to 6. -/
theorem C1_exactly_24h_resets :
    getProfile storeC1 1 = some profC1 ∧
    profC1.lastPushReset = some 0 ∧
    ¬ ((86400000 : Int) - 0 > 86400000) ∧
    (incrementProfilePushCount storeC1 86400000 1).2 ≠
      some { profC1 with dailyPushCount := profC1.dailyPushCount + 1 } ∧
    (incrementProfilePushCount storeC1 86400000 1).2 =
      some { profC1 with dailyPushCount := 1, lastPushReset := some 86400000 } := by
  decide

/-- C1 (amended): `incrementProfilePushCount` sets the count to 1 and
`lastPushReset` to now exactly when `lastPushReset` is null or at least 24
hours (≥ 24h, not strictly more) have elapsed since it; otherwise it adds 1
to the count and leaves `lastPushReset` unchanged (so at 23h59m59s elapsed
it increments without resetting). -/
theorem C1_reset_window (s : Store) (nowMs : Int) (id : Nat) (p : Profile)
    (h : getProfile s id = some p) :
    (p.lastPushReset = none →
      (incrementProfilePushCount s nowMs id).2 =
        some { p with dailyPushCount := 1, lastPushReset := some nowMs }) ∧
    (∀ t, p.lastPushReset = some t → nowMs - t ≥ 86400000 →
      (incrementProfilePushCount s nowMs id).2 =
        some { p with dailyPushCount := 1, lastPushReset := some nowMs }) ∧
    (∀ t, p.lastPushReset = some t → nowMs - t < 86400000 →
      (incrementProfilePushCount s nowMs id).2 =
        some { p with dailyPushCount := p.dailyPushCount + 1 }) := by
  have hreset := updateProfile_found s id p
    { dailyPushCount := some 1, lastPushReset := some (some nowMs) } h rfl
  have hinc := updateProfile_found s id p
    { dailyPushCount := some (p.dailyPushCount + 1) } h rfl
  refine ⟨?_, ?_, ?_⟩
  · intro hn
    simp only [incrementProfilePushCount, h, hn, if_true]
    exact hreset
  · intro t ht hge
    have h24 : has24HoursPassed nowMs t = true := by
      simp only [has24HoursPassed, decide_eq_true_eq]
      exact hge
    simp only [incrementProfilePushCount, h, ht, h24, if_true]
    exact hreset
  · intro t ht hlt
    have h24 : has24HoursPassed nowMs t = false := by
      simp only [has24HoursPassed, decide_eq_false_iff_not]
      omega
    simp only [incrementProfilePushCount, h, ht, h24, Bool.false_eq_true, if_false]
    rw [hinc]
    simp [applyProfilePatch, ht]

/-- C1 witness: 24h plus one second after the last reset, the push count
resets to 1 and the window restamps. -/
theorem C1_reset_window_witness :
    getProfile storeC1 1 = some profC1 ∧
    profC1.lastPushReset = some 0 ∧
    (86401000 : Int) - 0 ≥ 86400000 ∧
    (incrementProfilePushCount storeC1 86401000 1).2 =
      some { profC1 with dailyPushCount := 1, lastPushReset := some 86401000 } :=
  ⟨rfl, rfl, by decide,
   (C1_reset_window storeC1 86401000 1 profC1 rfl).2.1 0 rfl (by decide)⟩

/-- C3: for a stored video, `markVideoAsUploaded` followed immediately by
`revertVideoUpload` yields a video with status `pending`, `uploadedDate`
null and `youtubeLink` null, every other field equal to its value before
the mark — both as the returned record and as the stored row. -/
theorem C3_mark_then_revert (s : Store) (today : String) (id : Nat) (v : Video)
    (hv : getVideo s id = some v) :
    (revertVideoUpload (markVideoAsUploaded s today id).1 id).2 =
      some { v with status := "pending", uploadedDate := none, youtubeLink := none } ∧
    getVideo (revertVideoUpload (markVideoAsUploaded s today id).1 id).1 id =
      some { v with status := "pending", uploadedDate := none, youtubeLink := none } := by
  have hmark : markVideoAsUploaded s today id =
      updateVideo s id { status := some "completed", uploadedDate := some (some today) } := by
    unfold markVideoAsUploaded
    rw [hv]
  have h1 : getVideo (markVideoAsUploaded s today id).1 id =
      some (applyVideoPatch { status := some "completed", uploadedDate := some (some today) } v) := by
    rw [hmark, ← updateVideo_snd_eq]
    exact updateVideo_found s id v _ hv rfl
  have hrev : revertVideoUpload (markVideoAsUploaded s today id).1 id =
      updateVideo (markVideoAsUploaded s today id).1 id
        { status := some "pending", uploadedDate := some none, youtubeLink := some none } := by
    unfold revertVideoUpload
    rw [h1]
  have h2 := updateVideo_found (markVideoAsUploaded s today id).1 id
    (applyVideoPatch { status := some "completed", uploadedDate := some (some today) } v)
    { status := some "pending", uploadedDate := some none, youtubeLink := some none } h1 rfl
  constructor
  · rw [hrev]
    exact h2
  · rw [hrev, ← updateVideo_snd_eq]
    exact h2

/-- C3 witness: marking then reverting the pending video `vidC3` (which
carries a stale link) restores it with the link cleared. -/
theorem C3_mark_then_revert_witness :
    getVideo storeC3 1 = some vidC3 ∧
    ((revertVideoUpload (markVideoAsUploaded storeC3 "2024-05-02" 1).1 1).2 =
       some { vidC3 with status := "pending", uploadedDate := none, youtubeLink := none } ∧
     getVideo (revertVideoUpload (markVideoAsUploaded storeC3 "2024-05-02" 1).1 1).1 1 =
       some { vidC3 with status := "pending", uploadedDate := none, youtubeLink := none }) :=
  ⟨rfl, C3_mark_then_revert storeC3 "2024-05-02" 1 vidC3 rfl⟩

/-- C8: `updateProfile` is a partial update: the resulting record takes each
supplied field's new value and keeps the stored value of every field not
supplied, and an empty partial leaves the store and the record entirely
unchanged. -/
theorem C8_partial_update (s : Store) (id : Nat) (p : Profile) (u : ProfilePatch)
    (h : getProfile s id = some p) :
    (∃ q, (updateProfile s id u).2 = some q ∧ q.id = p.id ∧
      q.name = u.name.getD p.name ∧
      q.channelName = u.channelName.getD p.channelName ∧
      q.channelLink = u.channelLink.getD p.channelLink ∧
      q.dailyPushCount = u.dailyPushCount.getD p.dailyPushCount ∧
      q.lastPushReset = u.lastPushReset.getD p.lastPushReset) ∧
    (u.isEmpty = true → updateProfile s id u = (s, some p)) := by
  constructor
  · cases he : u.isEmpty with
    | false =>
      exact ⟨applyProfilePatch u p, updateProfile_found s id p u h he,
        rfl, rfl, rfl, rfl, rfl, rfl⟩
    | true =>
      have hres : (updateProfile s id u).2 = some p := by
        simp [updateProfile, he, h]
      have hf := he
      simp only [ProfilePatch.isEmpty, Bool.and_eq_true, Option.isNone_iff_eq_none] at hf
      obtain ⟨⟨⟨⟨e1, e2⟩, e3⟩, e4⟩, e5⟩ := hf
      refine ⟨p, hres, rfl, ?_, ?_, ?_, ?_, ?_⟩ <;> simp [e1, e2, e3, e4, e5]
  · intro he
    simp [updateProfile, he, h]

/-- C8 witness: patching only the display name of `profC1`. -/
theorem C8_partial_update_witness :
    getProfile storeC1 1 = some profC1 ∧
    ((∃ q, (updateProfile storeC1 1 { name := some "New" }).2 = some q ∧ q.id = profC1.id ∧
       q.name = (some "New").getD profC1.name ∧
       q.channelName = (none : Option String).getD profC1.channelName ∧
       q.channelLink = (none : Option String).getD profC1.channelLink ∧
       q.dailyPushCount = (none : Option Int).getD profC1.dailyPushCount ∧
       q.lastPushReset = (none : Option (Option Int)).getD profC1.lastPushReset) ∧
     (ProfilePatch.isEmpty { name := some "New" } = true →
       updateProfile storeC1 1 { name := some "New" } = (storeC1, some profC1))) :=
  ⟨rfl, C8_partial_update storeC1 1 profC1 { name := some "New" } rfl⟩

/-- C2 counterexample: deleting profile 1 cascades away its video `vidC2`,
which has both a file and a thumbnail, yet no file deletion is attempted
(the attempted-deletion trace is empty and the file area is untouched),
refuting the claimed per-video file cleanup. -/
theorem C2_cascade_leaves_files_behind :
    vidC2 ∈ storeC2.videos ∧ vidC2.profileId = 1 ∧
    vidC2.filePath = some "videos/a.mp4" ∧ vidC2.thumbnailPath = some "thumbs/a.jpg" ∧
    (∀ w ∈ (offlineDeleteProfile storeC2 fsC2 1).1.videos, w.profileId ≠ 1) ∧
    (¬ "videos/a.mp4" ∈ (offlineDeleteProfile storeC2 fsC2 1).2.2.1) ∧
    (¬ "thumbs/a.jpg" ∈ (offlineDeleteProfile storeC2 fsC2 1).2.2.1) ∧
    (offlineDeleteProfile storeC2 fsC2 1).2.1 = fsC2 := by
  refine ⟨by decide, rfl, rfl, rfl, by decide, by decide, by decide, rfl⟩

/-- C2 (amended): deleting a profile removes every video whose `profileId`
references it (the cascade) and keeps every other video, but attempts no
file or thumbnail deletion for the cascaded videos: the file area is
untouched and the attempted-deletion trace is empty. -/
theorem C2_cascade_without_file_cleanup (s : Store) (fs : FileArea) (id : Nat) :
    (∀ q ∈ (offlineDeleteProfile s fs id).1.profiles, q.id ≠ id) ∧
    (∀ w ∈ (offlineDeleteProfile s fs id).1.videos, w.profileId ≠ id) ∧
    (∀ w ∈ s.videos, w.profileId ≠ id → w ∈ (offlineDeleteProfile s fs id).1.videos) ∧
    (offlineDeleteProfile s fs id).2.1 = fs ∧
    (offlineDeleteProfile s fs id).2.2.1 = [] := by
  refine ⟨?_, ?_, ?_, rfl, rfl⟩
  · intro q hq
    have := (List.mem_filter.mp hq).2
    simpa using this
  · intro w hw
    have := (List.mem_filter.mp hw).2
    simpa using this
  · intro w hw hne
    exact List.mem_filter.mpr ⟨hw, by simpa using hne⟩

/-- C2 witness: the cascade on the concrete one-profile, one-video store. -/
theorem C2_cascade_without_file_cleanup_witness :
    (∀ q ∈ (offlineDeleteProfile storeC2 fsC2 1).1.profiles, q.id ≠ 1) ∧
    (∀ w ∈ (offlineDeleteProfile storeC2 fsC2 1).1.videos, w.profileId ≠ 1) ∧
    (∀ w ∈ storeC2.videos, w.profileId ≠ 1 → w ∈ (offlineDeleteProfile storeC2 fsC2 1).1.videos) ∧
    (offlineDeleteProfile storeC2 fsC2 1).2.1 = fsC2 ∧
    (offlineDeleteProfile storeC2 fsC2 1).2.2.1 = [] :=
  C2_cascade_without_file_cleanup storeC2 fsC2 1

theorem createProfile_fst (s : Store) (d : ProfileData) :
    (createProfile s d).1 =
      { s with profiles := s.profiles ++ [{ toProfileData := d, id := s.nextProfileId }],
               nextProfileId := s.nextProfileId + 1 } := by
  unfold createProfile
  rw [jsOrZero_eq]

theorem importProfiles_eq : ∀ (ds : List ProfileData) (s : Store),
    importProfiles ds s =
      { s with profiles := s.profiles ++ seedProfiles s.nextProfileId ds,
               nextProfileId := s.nextProfileId + ds.length } := by
  intro ds
  induction ds with
  | nil => intro s; simp [importProfiles, seedProfiles]
  | cons d ds ih =>
    intro s
    rw [importProfiles, createProfile_fst, ih]
    simp [seedProfiles]
    omega

theorem seedProfiles_data : ∀ (n : Nat) (ds : List ProfileData),
    (seedProfiles n ds).map Profile.toProfileData = ds := by
  intro n ds
  induction ds generalizing n with
  | nil => simp [seedProfiles]
  | cons d ds ih => simp [seedProfiles, ih]

theorem seedProfiles_any (pid : Nat) : ∀ (ds : List ProfileData) (n : Nat),
    ((seedProfiles n ds).any (fun p => p.id == pid)) = true ↔
      (n ≤ pid ∧ pid < n + ds.length) := by
  intro ds
  induction ds with
  | nil => intro n; simp [seedProfiles]
  | cons d ds ih =>
    intro n
    simp only [seedProfiles, List.any_cons, Bool.or_eq_true, beq_iff_eq, ih, List.length_cons]
    omega

theorem createVideo_ok (s : Store) (d : VideoData)
    (hfk : s.profiles.any (fun p => p.id == d.profileId) = true) :
    createVideo s d = Except.ok
      ({ s with videos := s.videos ++ [{ toVideoData := coerceVideoData d, id := s.nextVideoId }],
                nextVideoId := s.nextVideoId + 1 },
       { toVideoData := d, id := s.nextVideoId }) := by
  simp [createVideo, hfk]

theorem importVideos_ok : ∀ (ds : List VideoData) (s : Store),
    (∀ d ∈ ds, s.profiles.any (fun p => p.id == d.profileId) = true) →
    (importVideos ds s).2 = true ∧
    (importVideos ds s).1.profiles = s.profiles ∧
    (importVideos ds s).1.videos.map Video.toVideoData
      = s.videos.map Video.toVideoData ++ ds.map coerceVideoData := by
  intro ds
  induction ds with
  | nil => intro s _; simp [importVideos]
  | cons d ds ih =>
    intro s h
    have hd := h d (List.mem_cons_self d ds)
    have hstep := createVideo_ok s d hd
    have htail := ih
      { s with videos := s.videos ++ [{ toVideoData := coerceVideoData d, id := s.nextVideoId }],
               nextVideoId := s.nextVideoId + 1 }
      (fun d' hd' => h d' (List.mem_cons_of_mem d hd'))
    rw [importVideos, hstep]
    refine ⟨htail.1, htail.2.1, ?_⟩
    rw [htail.2.2]
    simp

/-- C6 counterexample: a store holding a video with `fileSize = 0` (a
JavaScript-falsy number).  Export then import into an empty store succeeds,
but the re-inserted row stores `fileSize = null` (`createVideo`'s
`video.fileSize || null`), so no stored record agrees with the exported one
on every field other than id: the multisets of id-less records differ. -/
theorem C6_falsy_fileSize_not_preserved :
    (importData (exportData storeC6).toInput emptyStore).2 = true ∧
    (exportData storeC6).videos.map (fun v => v.fileSize) = [some 0] ∧
    (importData (exportData storeC6).toInput emptyStore).1.videos.map (fun v => v.fileSize)
      = [none] ∧
    ¬ (((importData (exportData storeC6).toInput emptyStore).1.videos.map Video.toVideoData).Perm
        ((exportData storeC6).videos.map Video.toVideoData)) := by
  refine ⟨rfl, rfl, rfl, ?_⟩
  intro hperm
  have hmem : vidC6.toVideoData ∈
      (importData (exportData storeC6).toInput emptyStore).1.videos.map Video.toVideoData :=
    hperm.mem_iff.mpr (by decide)
  exact absurd hmem (by decide)

/-- C6 (amended): export followed by import into an empty store reproduces
the same multiset of profiles and of videos modulo ids, provided no record
field holds a value the INSERT coercions rewrite (no video field equal to
`some ""`, `some 0` or an empty status) and every video's `profileId` lies
within `1..(number of profiles)` so that the re-assigned profile ids
satisfy the foreign key on re-insert. -/
theorem C6_export_import_roundtrip (s : Store)
    (hclean : ∀ v ∈ s.videos, cleanVideoData v.toVideoData)
    (hfk : ∀ v ∈ s.videos, 1 ≤ v.profileId ∧ v.profileId ≤ s.profiles.length) :
    (importData (exportData s).toInput emptyStore).2 = true ∧
    ((importData (exportData s).toInput emptyStore).1.profiles.map Profile.toProfileData).Perm
      (s.profiles.map Profile.toProfileData) ∧
    ((importData (exportData s).toInput emptyStore).1.videos.map Video.toVideoData).Perm
      (s.videos.map Video.toVideoData) := by
  have hpP : (getProfiles s).Perm s.profiles := sortRows_perm _ _
  have hpV : (getVideos s).Perm s.videos := sortRows_perm _ _
  have himp : importData (exportData s).toInput emptyStore
      = importVideos ((getVideos s).map Video.toVideoData)
          (importProfiles ((getProfiles s).map Profile.toProfileData) emptyStore) := rfl
  have hs1 : importProfiles ((getProfiles s).map Profile.toProfileData) emptyStore =
      { profiles := seedProfiles 1 ((getProfiles s).map Profile.toProfileData), videos := [],
        nextProfileId := 1 + ((getProfiles s).map Profile.toProfileData).length,
        nextVideoId := 1 } := by
    rw [importProfiles_eq]
    simp [emptyStore]
  have hn : ((getProfiles s).map Profile.toProfileData).length = s.profiles.length := by
    rw [List.length_map]
    exact hpP.length_eq
  have hfkvs : ∀ d ∈ (getVideos s).map Video.toVideoData,
      ((seedProfiles 1 ((getProfiles s).map Profile.toProfileData)).any
        (fun p => p.id == d.profileId)) = true := by
    intro d hd
    rcases List.mem_map.mp hd with ⟨v, hv, rfl⟩
    have hvmem : v ∈ s.videos := hpV.mem_iff.mp hv
    have hb := hfk v hvmem
    rw [seedProfiles_any]
    omega
  have hiv := importVideos_ok ((getVideos s).map Video.toVideoData)
    (importProfiles ((getProfiles s).map Profile.toProfileData) emptyStore)
    (by intro d hd; rw [hs1]; exact hfkvs d hd)
  refine ⟨?_, ?_, ?_⟩
  · rw [himp]
    exact hiv.1
  · rw [himp, hiv.2.1, hs1]
    simp only [seedProfiles_data]
    exact hpP.map Profile.toProfileData
  · rw [himp, hiv.2.2, hs1]
    have hcl : ∀ d ∈ (getVideos s).map Video.toVideoData, coerceVideoData d = d := by
      intro d hd
      rcases List.mem_map.mp hd with ⟨v, hv, rfl⟩
      exact coerceVideoData_eq_self (hclean v (hpV.mem_iff.mp hv))
    have hmapc : ((getVideos s).map Video.toVideoData).map coerceVideoData
        = (getVideos s).map Video.toVideoData := by
      rw [List.map_congr_left hcl]
      exact List.map_id _
    simp only [hmapc, List.map_nil, List.nil_append]
    exact hpV.map Video.toVideoData

/-- C6 witness: the round trip on a clean one-profile, one-video store. -/
theorem C6_export_import_roundtrip_witness :
    (∀ v ∈ storeC6w.videos, cleanVideoData v.toVideoData) ∧
    (∀ v ∈ storeC6w.videos, 1 ≤ v.profileId ∧ v.profileId ≤ storeC6w.profiles.length) ∧
    ((importData (exportData storeC6w).toInput emptyStore).2 = true ∧
     ((importData (exportData storeC6w).toInput emptyStore).1.profiles.map
        Profile.toProfileData).Perm (storeC6w.profiles.map Profile.toProfileData) ∧
     ((importData (exportData storeC6w).toInput emptyStore).1.videos.map
        Video.toVideoData).Perm (storeC6w.videos.map Video.toVideoData)) :=
  ⟨by decide, by decide, C6_export_import_roundtrip storeC6w (by decide) (by decide)⟩
